import Mathlib

/-
Shallow embedding of the rt_timestamp repository (src/lib.rs, src/main.rs,
src/main2.rs, src/main3.rs): a latency-adjusted Roughtime querier.

Modelling conventions:
- Bytes (Rust Vec<u8> / &[u8]) are lists of naturals below 256.
- SystemTime is a natural number of nanoseconds since the Unix epoch;
  Duration is a natural number of nanoseconds.  Duration.as_micros is
  truncating division by 1000; Duration.from_micros multiplies by 1000.
- Rust integer casts are explicit: an `as u64` cast is `% 2 ^ 64`.
  i128 arithmetic on offsets is modelled as exact Int arithmetic (the
  claims never reach the i128 boundary).
- Fallible Rust code returns Except.  A Rust panic (unwrap on None,
  out-of-range slice, assert_eq failure) is a distinguished `panicked`
  outcome, since the claims distinguish typed errors from panics.
- The f64 field rtt_ms of BeaconMeta is display-only, touched by no claim,
  and is left out of the integer model.
- The roughenough dependency (RtMessage wire codec, MerkleTree) is not
  part of this repository; its message format and Merkle fold are modelled
  from the wire-format description in the spec, with the digest function
  taken as an abstract parameter (the spec treats hash(bytes) -> digest as
  a black-box collaborator).
-/

set_option maxRecDepth 4000

namespace RtTimestamp

/-- A byte string: Vec<u8> / &[u8]. -/
abbrev Bytes := List Nat

/-- Little-endian encoding of a u32 value. -/
def u32le (n : Nat) : Bytes :=
  [n % 256, n / 256 % 256, n / 65536 % 256, n / 16777216 % 256]

/-- u32::from_le_bytes on the first four bytes, none when fewer than four
bytes are available (the Rust code then panics on the `[..4]` slice). -/
def readU32le (l : Bytes) : Option Nat :=
  match l with
  | a :: b :: c :: d :: _ => some (a + 256 * b + 65536 * c + 16777216 * d)
  | _ => none

/-- u64::from_le_bytes on the first eight bytes. -/
def readU64le (l : Bytes) : Option Nat :=
  match l with
  | a :: b :: c :: d :: e :: f :: g :: h :: _ =>
      some (a + 256 * (b + 256 * (c + 256 * (d + 256 * (e + 256 * (f + 256 * (g + 256 * h)))))))
  | _ => none

/-- Roughtime tag NONC (bytes of "NONC"). -/
def Tag.NONC : Bytes := [0x4e, 0x4f, 0x4e, 0x43]

/-- Roughtime tag PAD (bytes of "PAD" followed by 0xff). -/
def Tag.PAD : Bytes := [0x50, 0x41, 0x44, 0xff]

/-- Roughtime tag SREP (signed response sub-message). -/
def Tag.SREP : Bytes := [0x53, 0x52, 0x45, 0x50]

/-- Roughtime tag INDX (Merkle leaf index). -/
def Tag.INDX : Bytes := [0x49, 0x4e, 0x44, 0x58]

/-- Roughtime tag PATH (Merkle sibling path). -/
def Tag.PATH : Bytes := [0x50, 0x41, 0x54, 0x48]

/-- Roughtime tag RADI (server uncertainty radius). -/
def Tag.RADI : Bytes := [0x52, 0x41, 0x44, 0x49]

/-- Roughtime tag MIDP (server midpoint time). -/
def Tag.MIDP : Bytes := [0x4d, 0x49, 0x44, 0x50]

/-- Roughtime tag ROOT (claimed Merkle root). -/
def Tag.ROOT : Bytes := [0x52, 0x4f, 0x4f, 0x54]

/-- Modelled from the spec: a ResponseMessage is a mapping from 4-byte tag
to byte-string value (roughenough RtMessage, a dependency not in src/).
Fields are kept in wire order. -/
structure RtMessage where
  fields : List (Bytes × Bytes)
deriving DecidableEq

/-- RtMessage.get_field: the value stored under a tag, if present. -/
def RtMessage.get_field (m : RtMessage) (tag : Bytes) : Option Bytes :=
  (m.fields.find? (fun p => p.1 == tag)).map Prod.snd

/-- Numeric (little-endian u32) value of a tag, used for the strictly
increasing tag order that add_field enforces. -/
def tagValue (t : Bytes) : Nat := (readU32le t).getD 0

/-- RtMessage.add_field: append a field, failing unless the tag is
strictly greater than the last tag added. -/
def RtMessage.add_field (m : RtMessage) (tag : Bytes) (value : Bytes) :
    Except String RtMessage :=
  match m.fields.getLast? with
  | some p =>
      if tagValue p.1 < tagValue tag then .ok ⟨m.fields ++ [(tag, value)]⟩
      else .error "tags must be added in strictly increasing order"
  | none => .ok ⟨m.fields ++ [(tag, value)]⟩

/-- Total byte length of the values of a message. -/
def valuesSize (fs : List (Bytes × Bytes)) : Nat :=
  (fs.map (fun p => p.2.length)).sum

/-- RtMessage.encoded_size: 4 header bytes, 4 bytes per offset (one fewer
than the number of tags), 4 bytes per tag, plus all values. -/
def RtMessage.encoded_size (m : RtMessage) : Nat :=
  let n := m.fields.length
  4 + 4 * (n - 1) + 4 * n + valuesSize m.fields

/-- Cumulative end positions of a list of values (the wire offsets of the
second and later values inside the values region). -/
def cumLengths (acc : Nat) : List Bytes → List Nat
  | [] => []
  | v :: vs => (acc + v.length) :: cumLengths (acc + v.length) vs

/-- Modelled from the spec: the tagged-dictionary wire encoding.  Header
u32 tag count, then the offsets of the second and later values, then the
4-byte tags in order, then the concatenated values. -/
def RtMessage.encode (m : RtMessage) : Bytes :=
  let vs := m.fields.map Prod.snd
  let offs := cumLengths 0 (vs.take (vs.length - 1))
  u32le m.fields.length ++ (offs.map u32le).flatten
    ++ (m.fields.map Prod.fst).flatten ++ vs.flatten

/-- Cut the values region into the per-tag values, slicing between
consecutive offsets; the final value extends to the end of the message. -/
def splitValues (prev : Nat) : List Nat → Bytes → List Bytes
  | [], v => [v.drop prev]
  | o :: rest, v => (v.drop prev).take (o - prev) :: splitValues o rest v

/-- Modelled from the spec: RtMessage.from_bytes, decoding the tagged
dictionary; fails on a buffer too short for its declared tag count. -/
def from_bytes (buf : Bytes) : Except String RtMessage :=
  match readU32le buf with
  | none => .error "message too short"
  | some numTags =>
    if numTags = 0 then .ok ⟨[]⟩
    else
      let header := 4 + 4 * (numTags - 1) + 4 * numTags
      if buf.length < header then .error "truncated message"
      else
        let offs := (List.range (numTags - 1)).map
          (fun i => (readU32le (buf.drop (4 + 4 * i))).getD 0)
        let tags := (List.range numTags).map
          (fun i => (buf.drop (4 + 4 * (numTags - 1) + 4 * i)).take 4)
        .ok ⟨tags.zip (splitValues 0 offs (buf.drop header))⟩

/-- pad_nonce (lib.rs lines 57 to 62): Vec::resize(64, 0) of the 32-byte
hash, i.e. truncate to 64 bytes then zero-fill up to 64. -/
def pad_nonce (hash : Bytes) : Bytes :=
  hash.take 64 ++ List.replicate (64 - hash.length) 0

/-- calculate_padding_length: padding needed so that the encoded message
reaches the 1024-byte protocol floor (roughenough constant). -/
def calculate_padding_length (m : RtMessage) : Nat := 1024 - m.encoded_size

/-- build_packet (lib.rs lines 146 to 155): encode NONC and an empty PAD,
measure the shortfall against the 1024-byte floor, then re-encode with a
zero-filled PAD of exactly that length. -/
def build_packet (nonce : Bytes) : Except String Bytes :=
  ((⟨[]⟩ : RtMessage).add_field Tag.NONC nonce).bind (fun req1 =>
  (req1.add_field Tag.PAD []).bind (fun req2 =>
  let padLen := calculate_padding_length req2
  ((⟨[]⟩ : RtMessage).add_field Tag.NONC nonce).bind (fun req3 =>
  (req3.add_field Tag.PAD (List.replicate padLen 0)).bind (fun req4 =>
  .ok req4.encode))))

/-- Duration.as_micros of a duration given in nanoseconds. -/
def durationAsMicros (ns : Nat) : Nat := ns / 1000

/-- Half round-trip in microseconds (lib.rs line 178, main3.rs line 131):
Duration::from_micros((rtt.as_micros() / 2) as u64).  The `as u64` cast
truncates modulo 2 ^ 64. -/
def half_rtt_us (rtt_ns : Nat) : Nat := durationAsMicros rtt_ns / 2 % 2 ^ 64

/-- true_time (lib.rs line 179): t_send_wall + half_rtt, in nanoseconds. -/
def true_time_ns (t_send_wall_ns rtt_ns : Nat) : Nat :=
  t_send_wall_ns + half_rtt_us rtt_ns * 1000

/-- offset_us (lib.rs lines 180 to 185): the signed microsecond difference
between the midpoint as wall time and true_time, positive when the server
midpoint is ahead, obtained through duration_since in either direction and
truncating as_micros. -/
def offset_us (t_send_wall_ns rtt_ns mid_us : Nat) : Int :=
  let t := true_time_ns t_send_wall_ns rtt_ns
  let m := mid_us * 1000
  if t ≤ m then ((m - t) / 1000 : Nat) else -(((t - m) / 1000 : Nat) : Int)

/-- uncert_us (lib.rs line 192): radius_us as i128 + half_rtt.as_micros()
as i128. -/
def uncert_us (rtt_ns : Nat) (radius_us : Nat) : Int :=
  (radius_us : Int) + (half_rtt_us rtt_ns : Int)

/-- BeaconMeta (lib.rs lines 29 to 37).  true_time is a SystemTime in
nanoseconds since the epoch; the display-only f64 field rtt_ms is not part
of the integer model. -/
structure BeaconMeta where
  host : String
  true_time : Nat
  offset_us : Int
  uncert_us : Int
  radius_us : Nat
deriving DecidableEq

/-- Metadata (lib.rs lines 23 to 27); the two-element array is a pair. -/
structure Metadata where
  beacons : BeaconMeta × BeaconMeta
  drift_us : Nat
deriving DecidableEq

/-- TimestampResponse (lib.rs lines 16 to 21). -/
structure TimestampResponse where
  input_hash : String
  timestamp : Nat
  metadata : Metadata
deriving DecidableEq

/-- TimestampError (lib.rs lines 39 to 47). -/
inductive TimestampError where
  | io (msg : String)
  | join
  | noProbes
deriving DecidableEq

/-- Outcome of running fallible Rust code that can also panic: a normal
value, an Err propagated with ?, or a panic (unwrap on None, slice out of
range, assert_eq failure). -/
inductive Outcome (α : Type) where
  | ok (value : α)
  | ioErr (msg : String)
  | panicked (msg : String)
deriving DecidableEq

/-- sys_to_us (lib.rs lines 69 to 74): microseconds since the epoch of a
SystemTime, cast `as u64`. -/
def sys_to_us (t_ns : Nat) : Nat := t_ns / 1000 % 2 ^ 64

/-- hex::encode of a byte string, lowercase. -/
def hexEncode (bytes : Bytes) : String :=
  String.mk (bytes.flatMap (fun b => [Nat.digitChar (b / 16 % 16), Nat.digitChar (b % 16)]))

/-- Modelled from the spec: MerkleTree::root_from_paths of the roughenough
dependency.  Starting from the leaf digest of the nonce, fold over the
64-byte sibling chunks of the path, the side chosen by the low bit of the
index; the digest functions are abstract parameters (black-box hash
collaborator in the spec). -/
def rootFromPathsGo (hashNodes : Bytes → Bytes → Bytes) :
    Nat → Nat → Bytes → Bytes → Bytes
  | 0, _, hash, _ => hash
  | _, _, hash, [] => hash
  | fuel + 1, index, hash, p :: rest =>
    let chunk := (p :: rest).take 64
    let next := if index % 2 = 0 then hashNodes hash chunk else hashNodes chunk hash
    rootFromPathsGo hashNodes fuel (index / 2) next ((p :: rest).drop 64)

/-- Entry point of the Merkle fold; the fuel is the path length, an upper
bound on the number of 64-byte chunks consumed, so the fold always runs to
the end of the path. -/
def rootFromPaths (hashNodes : Bytes → Bytes → Bytes) (index : Nat)
    (hash : Bytes) (paths : Bytes) : Bytes :=
  rootFromPathsGo hashNodes paths.length index hash paths

/-- parse_reply (lib.rs lines 157 to 195): decode the outer message and
the nested signed response, unwrap (panic on absence) each required tag,
panic on short RADI or MIDP values via the fixed-width slices, recompute
the Merkle root and assert_eq it against ROOT (panic on mismatch), then
build the verified BeaconMeta through the offset estimator. -/
def parse_reply (hashLeaf : Bytes → Bytes) (hashNodes : Bytes → Bytes → Bytes)
    (host : String) (nonce : Bytes) (buf : Bytes)
    (t_send_wall_ns : Nat) (rtt_ns : Nat) : Outcome BeaconMeta :=
  match from_bytes buf with
  | .error e => .ioErr e
  | .ok resp =>
  match resp.get_field Tag.SREP with
  | none => .panicked "called Option::unwrap on a None value"
  | some srepBytes =>
  match from_bytes srepBytes with
  | .error e => .ioErr e
  | .ok srep =>
  match srep.get_field Tag.RADI with
  | none => .panicked "called Option::unwrap on a None value"
  | some radi =>
  match readU32le radi with
  | none => .panicked "range end index 4 out of range"
  | some radius_us =>
  match srep.get_field Tag.MIDP with
  | none => .panicked "called Option::unwrap on a None value"
  | some midp =>
  match readU64le midp with
  | none => .panicked "range end index 8 out of range"
  | some mid_us =>
  match resp.get_field Tag.INDX with
  | none => .panicked "called Option::unwrap on a None value"
  | some indx =>
  match readU32le indx with
  | none => .panicked "range end index 4 out of range"
  | some idx =>
  match resp.get_field Tag.PATH with
  | none => .panicked "called Option::unwrap on a None value"
  | some path =>
  match srep.get_field Tag.ROOT with
  | none => .panicked "called Option::unwrap on a None value"
  | some claimedRoot =>
  if rootFromPaths hashNodes idx (hashLeaf nonce) path ≠ claimedRoot then
    .panicked "Merkle path invalid"
  else
    .ok { host := host
          true_time := true_time_ns t_send_wall_ns rtt_ns
          offset_us := offset_us t_send_wall_ns rtt_ns mid_us
          uncert_us := uncert_us rtt_ns radius_us
          radius_us := radius_us }

/-- ProbeResult (main.rs lines 24 to 31); rtt kept in nanoseconds. -/
structure ProbeResult where
  host : String
  rtt_ns : Nat
  midpoint_us : Nat
  radius_us : Nat
  merkle_ok : Bool
deriving DecidableEq

/-- The parse-and-verify step of probe_once (main.rs lines 131 to 151):
the same unwrapping decode, but the Merkle comparison result is stored as
the boolean merkle_ok field instead of being enforced. -/
def probe_once_parse (hashLeaf : Bytes → Bytes) (hashNodes : Bytes → Bytes → Bytes)
    (host : String) (nonce : Bytes) (buf : Bytes) (rtt_ns : Nat) :
    Outcome ProbeResult :=
  match from_bytes buf with
  | .error e => .ioErr e
  | .ok resp =>
  match resp.get_field Tag.SREP with
  | none => .panicked "called Option::unwrap on a None value"
  | some srepBytes =>
  match from_bytes srepBytes with
  | .error e => .ioErr e
  | .ok srep =>
  match srep.get_field Tag.RADI with
  | none => .panicked "called Option::unwrap on a None value"
  | some radi =>
  match readU32le radi with
  | none => .panicked "range end index 4 out of range"
  | some radius_us =>
  match srep.get_field Tag.MIDP with
  | none => .panicked "called Option::unwrap on a None value"
  | some midp =>
  match readU64le midp with
  | none => .panicked "range end index 8 out of range"
  | some mid_us =>
  match resp.get_field Tag.INDX with
  | none => .panicked "called Option::unwrap on a None value"
  | some indx =>
  match readU32le indx with
  | none => .panicked "range end index 4 out of range"
  | some idx =>
  match resp.get_field Tag.PATH with
  | none => .panicked "called Option::unwrap on a None value"
  | some path =>
  match srep.get_field Tag.ROOT with
  | none => .panicked "called Option::unwrap on a None value"
  | some claimedRoot =>
  .ok { host := host
        rtt_ns := rtt_ns
        midpoint_us := mid_us
        radius_us := radius_us
        merkle_ok := rootFromPaths hashNodes idx (hashLeaf nonce) path == claimedRoot }

/-- The aggregation step of get_timestamp_custom (lib.rs lines 98 to 114):
take the earlier true_time of the two beacons, convert it with sys_to_us,
and expose drift_us = (p1.offset_us - p2.offset_us).abs() as u64. -/
def aggregateResponse (hash : Bytes) (p1 p2 : BeaconMeta) : TimestampResponse :=
  let median_st := if p1.true_time ≤ p2.true_time then p1.true_time else p2.true_time
  { input_hash := hexEncode hash
    timestamp := sys_to_us median_st
    metadata := { beacons := (p1, p2)
                  drift_us := (p1.offset_us - p2.offset_us).natAbs % 2 ^ 64 } }

/-- get_timestamp_custom, fan-in part (lib.rs lines 95 to 114): join probe
one then probe two, propagate the first failure with ?, otherwise
aggregate the two verified measurements. -/
def get_timestamp_custom (hash : Bytes)
    (r1 r2 : Except TimestampError BeaconMeta) :
    Except TimestampError TimestampResponse :=
  match r1 with
  | .error e => .error e
  | .ok p1 =>
    match r2 with
    | .error e => .error e
    | .ok p2 => .ok (aggregateResponse hash p1 p2)

/-- Modelled from the spec: the latency-adjusted local-clock estimate of a
beacon in microseconds, true_time plus the measured offset (section 4.6
vocabulary), in exact arithmetic. -/
def specLocalEstimate (p : BeaconMeta) : Int :=
  (p.true_time / 1000 : Nat) + p.offset_us

/-- Modelled from the spec: the section 4.6 aggregation policy.  When the
two offsets disagree beyond the combined uncertainty bound, resolve to the
estimate of the beacon with the smaller combined_uncertainty; otherwise
resolve to the mean of the two latency-adjusted local-clock estimates. -/
def specResolvedTimestamp (p1 p2 : BeaconMeta) : Int :=
  if abs (p1.offset_us - p2.offset_us) > p1.uncert_us + p2.uncert_us then
    if p1.uncert_us ≤ p2.uncert_us then specLocalEstimate p1 else specLocalEstimate p2
  else
    (specLocalEstimate p1 + specLocalEstimate p2) / 2

/-- The decoded value of one tag of a raw packet, none when the packet
does not decode or the tag is absent. -/
def decodeField (buf : Bytes) (tag : Bytes) : Option Bytes :=
  match from_bytes buf with
  | .ok m => m.get_field tag
  | .error _ => none

-- -------------------------------------------------------------------------
-- Theorems

/-- Claim C1, counterexample: for the spec example pair (offsets +5ms and
+5.5ms, both with uncertainty 2ms, true_time 10^9 microseconds), the
section 4.6 policy resolves to the mean estimate 1000005250 microseconds,
but the aggregation of get_timestamp_custom returns 1000000000, the
earlier true_time: the code does not apply the claimed policy. -/
theorem c1_counterexample :
    specResolvedTimestamp ⟨"a", 1000000000000, 5000, 2000, 0⟩
        ⟨"b", 1000000000000, 5500, 2000, 0⟩ = 1000005250 ∧
    ((aggregateResponse [] ⟨"a", 1000000000000, 5000, 2000, 0⟩
        ⟨"b", 1000000000000, 5500, 2000, 0⟩).timestamp : Int) = 1000000000 ∧
    (1000000000 : Int) ≠ 1000005250 :=
  ⟨by decide, by decide, by decide⟩

/-- Claim C1 (amended): the aggregation step ignores offsets and
uncertainties entirely; for measurements carrying the spec example offsets
+5000 and +5500 microseconds with uncertainty 2000 each, the resolved
timestamp is the earlier (minimum) of the two latency-adjusted true_time
values converted by sys_to_us, not the mean of the estimates, while
drift_us is 500. -/
theorem c1_earlier_true_time_wins (h1 h2 : String) (t1 t2 r1 r2 : Nat) :
    (aggregateResponse [] ⟨h1, t1, 5000, 2000, r1⟩
        ⟨h2, t2, 5500, 2000, r2⟩).timestamp = sys_to_us (min t1 t2) ∧
    (aggregateResponse [] ⟨h1, t1, 5000, 2000, r1⟩
        ⟨h2, t2, 5500, 2000, r2⟩).metadata.drift_us = 500 := by
  constructor
  · simp [aggregateResponse, Nat.min_def]
  · simp [aggregateResponse]

/-- Claim C3, counterexample: with probe one timed out and probe two
verified, the query does not succeed using the surviving beacon (as the
claim asserts for quorum 1): the coordinator propagates the timeout
error of the failed probe. -/
theorem c3_counterexample :
    (get_timestamp_custom [] (.error (.io "timed out"))
        (.ok ⟨"b", 0, 0, 0, 0⟩)).isOk = false ∧
    get_timestamp_custom [] (.error (.io "timed out")) (.ok ⟨"b", 0, 0, 0, 0⟩)
      = .error (.io "timed out") :=
  ⟨rfl, rfl⟩

/-- Claim C3 (amended): the coordinator requires both probes: the query
succeeds exactly when both probes produced a verified BeaconMeasurement,
and otherwise fails with the failed probe own error, joined first probe
first; there is no quorum configuration and no error naming the failed
hosts. -/
theorem c3_both_probes_required (hash : Bytes)
    (r1 r2 : Except TimestampError BeaconMeta) (e : TimestampError)
    (m : BeaconMeta) :
    ((get_timestamp_custom hash r1 r2).isOk ↔ r1.isOk ∧ r2.isOk) ∧
    get_timestamp_custom hash (.error e) r2 = .error e ∧
    get_timestamp_custom hash (.ok m) (.error e) = .error e := by
  refine ⟨?_, rfl, rfl⟩
  cases r1 <;> cases r2 <;> simp [get_timestamp_custom, Except.isOk, Except.toBool]

/-- Claim C7, counterexample: for a pair of measurements whose offsets
differ by 2 ^ 64 microseconds, the exposed drift is 0 and not the absolute
difference: the `as u64` cast truncates the i128 absolute difference. -/
theorem c7_counterexample :
    (aggregateResponse [] ⟨"a", 0, 2 ^ 64, 0, 0⟩
        ⟨"b", 0, 0, 0, 0⟩).metadata.drift_us = 0 ∧
    ((2 ^ 64 : Int) - 0).natAbs ≠ 0 :=
  ⟨by decide, by decide⟩

/-- Claim C7 (amended): for every pair of measurements the exposed drift
is the absolute difference of the two offsets reduced modulo 2 ^ 64 (the
`as u64` cast), hence equal to the absolute difference whenever that
difference fits in 64 bits, regardless of the rest of the measurements. -/
theorem c7_drift_abs_mod (hash : Bytes) (p1 p2 : BeaconMeta) :
    (aggregateResponse hash p1 p2).metadata.drift_us
      = (p1.offset_us - p2.offset_us).natAbs % 2 ^ 64 ∧
    ((p1.offset_us - p2.offset_us).natAbs < 2 ^ 64 →
      (aggregateResponse hash p1 p2).metadata.drift_us
        = (p1.offset_us - p2.offset_us).natAbs) := by
  exact ⟨rfl, fun h => Nat.mod_eq_of_lt h⟩

/-- Claim C7 witness: the amended drift equation evaluated on a concrete
pair whose offset difference fits in 64 bits. -/
theorem c7_drift_abs_mod_witness :
    (aggregateResponse [] ⟨"a", 0, 7, 0, 0⟩
        ⟨"b", 0, 2, 0, 0⟩).metadata.drift_us = ((7 : Int) - 2).natAbs :=
  (c7_drift_abs_mod [] ⟨"a", 0, 7, 0, 0⟩ ⟨"b", 0, 2, 0, 0⟩).2 (by decide)

/-- Claim C8: the aggregation step is a pure function of the two
measurements: any two runs on the same fixed pair of BeaconMeasurements
produce the same resolved timestamp (and the same full response). -/
theorem c8_aggregation_deterministic (hash : Bytes) (p1 p2 : BeaconMeta)
    (r r' : TimestampResponse)
    (h : r = aggregateResponse hash p1 p2)
    (h' : r' = aggregateResponse hash p1 p2) :
    r.timestamp = r'.timestamp ∧ r = r' := by
  subst h h'
  exact ⟨rfl, rfl⟩

/-- Claim C8 witness: two runs of the aggregation on a concrete pair. -/
theorem c8_aggregation_deterministic_witness :
    (aggregateResponse [] ⟨"a", 3, 5, 7, 9⟩ ⟨"b", 4, 6, 8, 10⟩).timestamp
      = (aggregateResponse [] ⟨"a", 3, 5, 7, 9⟩ ⟨"b", 4, 6, 8, 10⟩).timestamp ∧
    aggregateResponse [] ⟨"a", 3, 5, 7, 9⟩ ⟨"b", 4, 6, 8, 10⟩
      = aggregateResponse [] ⟨"a", 3, 5, 7, 9⟩ ⟨"b", 4, 6, 8, 10⟩ :=
  c8_aggregation_deterministic [] ⟨"a", 3, 5, 7, 9⟩ ⟨"b", 4, 6, 8, 10⟩ _ _ rfl rfl

/-- Claim C9: for every pair of successful probe results, the returned
timestamp is sys_to_us (the microseconds-since-epoch conversion) of the
minimum of the two per-beacon latency-adjusted true_time values,
independent of offsets and uncertainties. -/
theorem c9_timestamp_is_min_true_time (hash : Bytes) (p1 p2 : BeaconMeta) :
    get_timestamp_custom hash (.ok p1) (.ok p2)
      = .ok (aggregateResponse hash p1 p2) ∧
    (aggregateResponse hash p1 p2).timestamp
      = sys_to_us (min p1.true_time p2.true_time) := by
  refine ⟨rfl, ?_⟩
  simp [aggregateResponse, Nat.min_def]

/-- Claim C5, counterexample: for a Duration of 2 ^ 65 * 1000 nanoseconds
(representable in Rust, about 1.2 million millennia), the `as u64` cast in
the half-RTT makes the combined uncertainty 0 rather than the claimed
radius + rtt / 2 = 2 ^ 64 microseconds. -/
theorem c5_counterexample :
    uncert_us (2 ^ 65 * 1000) 0 = 0 ∧
    uncert_us (2 ^ 65 * 1000) 0 ≠ ((0 : Int) + ((2 ^ 65 * 1000) / 1000 / 2 : Nat)) :=
  ⟨by decide, by decide⟩

/-- Claim C5 (amended): whenever half the round trip in microseconds fits
in a u64 (true of every physically measurable RTT), the estimator yields
offset = midpoint - (send_wall_time + rtt / 2) in signed truncating
microsecond arithmetic (send time taken at whole microseconds) and
combined_uncertainty = radius + rtt / 2; the spec instance send = T,
rtt = 100 ms, midpoint = T + 50 ms, radius = 1 ms yields offset 0 and
uncertainty 51000 microseconds. -/
theorem c5_offset_and_uncertainty (s rtt_ns mid_us radius_us : Nat)
    (hr : rtt_ns / 1000 / 2 < 2 ^ 64) :
    (offset_us (s * 1000) rtt_ns mid_us
        = (mid_us : Int) - ((s : Int) + (rtt_ns / 1000 / 2 : Nat)) ∧
      uncert_us rtt_ns radius_us
        = (radius_us : Int) + (rtt_ns / 1000 / 2 : Nat)) ∧
    (offset_us (s * 1000) 100000000 (s + 50000) = 0 ∧
      uncert_us 100000000 1000 = 51000) := by
  have hh : half_rtt_us rtt_ns = rtt_ns / 1000 / 2 := by
    simpa [half_rtt_us, durationAsMicros] using Nat.mod_eq_of_lt hr
  have h100 : half_rtt_us 100000000 = 50000 := by decide
  refine ⟨⟨?_, ?_⟩, ?_, by decide⟩
  · unfold offset_us true_time_ns
    rw [hh]
    by_cases hc : s * 1000 + rtt_ns / 1000 / 2 * 1000 ≤ mid_us * 1000
    · rw [if_pos hc]
      have e1 : mid_us * 1000 - (s * 1000 + rtt_ns / 1000 / 2 * 1000)
          = (mid_us - (s + rtt_ns / 1000 / 2)) * 1000 := by omega
      rw [e1, Nat.mul_div_cancel _ (by norm_num)]
      omega
    · rw [if_neg hc]
      have e1 : s * 1000 + rtt_ns / 1000 / 2 * 1000 - mid_us * 1000
          = (s + rtt_ns / 1000 / 2 - mid_us) * 1000 := by omega
      rw [e1, Nat.mul_div_cancel _ (by norm_num)]
      omega
  · unfold uncert_us
    rw [hh]
  · unfold offset_us true_time_ns
    rw [h100]
    have hc : s * 1000 + 50000 * 1000 ≤ (s + 50000) * 1000 := by omega
    rw [if_pos hc]
    have e1 : (s + 50000) * 1000 - (s * 1000 + 50000 * 1000) = 0 := by omega
    rw [e1]
    rfl

/-- Claim C5 witness: the amended estimator equations evaluated at send
time 0, rtt 100 ms, midpoint 50000 microseconds, radius 1000. -/
theorem c5_offset_and_uncertainty_witness :
    (100000000 : Nat) / 1000 / 2 < 2 ^ 64 ∧
    ((offset_us (0 * 1000) 100000000 50000
        = (50000 : Int) - ((0 : Int) + ((100000000 : Nat) / 1000 / 2 : Nat)) ∧
      uncert_us 100000000 1000
        = (1000 : Int) + ((100000000 : Nat) / 1000 / 2 : Nat)) ∧
    (offset_us (0 * 1000) 100000000 (0 + 50000) = 0 ∧
      uncert_us 100000000 1000 = 51000)) :=
  ⟨by decide, c5_offset_and_uncertainty 0 100000000 50000 1000 (by decide)⟩

/-- Claim C10, counterexample: for a round trip of 2 ^ 65 + 2 microseconds
(a representable Duration), the half-RTT the code uses is 1, not the
truncated half 2 ^ 64 + 1: the `as u64` cast reduces it modulo 2 ^ 64, so
uncert_us is radius + 1 rather than radius + floor(rtt_us / 2). -/
theorem c10_counterexample :
    half_rtt_us ((2 ^ 65 + 2) * 1000) = 1 ∧
    uncert_us ((2 ^ 65 + 2) * 1000) 5 = 6 ∧
    ((2 ^ 65 + 2) * 1000) / 1000 / 2 ≠ 1 :=
  ⟨by decide, by decide, by decide⟩

/-- Claim C10 (amended): the half-RTT is the round trip in microseconds
divided by two with truncation, reduced modulo 2 ^ 64 by the `as u64`
cast (so exactly the truncated half whenever that fits in a u64); the
same half-RTT value enters true_time (hence the offset) and the combined
uncertainty, and uncert_us = radius_us + half-RTT is always at least
radius_us and never negative. -/
theorem c10_half_rtt_truncation (rtt_ns radius_us t_ns : Nat) :
    half_rtt_us rtt_ns = rtt_ns / 1000 / 2 % 2 ^ 64 ∧
    (rtt_ns / 1000 / 2 < 2 ^ 64 → half_rtt_us rtt_ns = rtt_ns / 1000 / 2) ∧
    uncert_us rtt_ns radius_us = (radius_us : Int) + (half_rtt_us rtt_ns : Int) ∧
    true_time_ns t_ns rtt_ns = t_ns + half_rtt_us rtt_ns * 1000 ∧
    (radius_us : Int) ≤ uncert_us rtt_ns radius_us ∧
    0 ≤ uncert_us rtt_ns radius_us := by
  refine ⟨rfl, fun h => Nat.mod_eq_of_lt h, rfl, rfl, ?_, ?_⟩
  · exact le_add_of_nonneg_right (Int.ofNat_nonneg _)
  · exact add_nonneg (Int.ofNat_nonneg _) (Int.ofNat_nonneg _)

/-- Claim C10 witness: the truncated-half equations evaluated at a 100 ms
round trip with radius 3. -/
theorem c10_half_rtt_truncation_witness :
    (100000000 : Nat) / 1000 / 2 < 2 ^ 64 ∧
    half_rtt_us 100000000 = 100000000 / 1000 / 2 :=
  ⟨by decide, (c10_half_rtt_truncation 100000000 3 0).2.1 (by decide)⟩

lemma exceptBindOk (a : RtMessage) (f : RtMessage → Except String Bytes) :
    (Except.ok a : Except String RtMessage).bind f = f a := rfl

lemma pad_nonce_eq (hash : Bytes) (h32 : hash.length = 32) :
    pad_nonce hash = hash ++ List.replicate 32 0 := by
  simp [pad_nonce, h32, List.take_of_length_le]

lemma pad_nonce_len (hash : Bytes) (h32 : hash.length = 32) :
    (pad_nonce hash).length = 64 := by
  simp [pad_nonce_eq hash h32, h32]

lemma build_packet_eq (nonce : Bytes) (hn : nonce.length = 64) :
    build_packet nonce
      = .ok (u32le 2 ++ u32le 64 ++ Tag.NONC ++ Tag.PAD ++ nonce ++ List.replicate 944 0) := by
  have hord : tagValue Tag.NONC < tagValue Tag.PAD := by decide
  have h1 : (⟨[]⟩ : RtMessage).add_field Tag.NONC nonce = .ok ⟨[(Tag.NONC, nonce)]⟩ := by
    simp [RtMessage.add_field]
  have h2 : (⟨[(Tag.NONC, nonce)]⟩ : RtMessage).add_field Tag.PAD []
      = .ok ⟨[(Tag.NONC, nonce), (Tag.PAD, [])]⟩ := by
    simp [RtMessage.add_field, hord]
  have h3 : calculate_padding_length ⟨[(Tag.NONC, nonce), (Tag.PAD, [])]⟩ = 944 := by
    simp [calculate_padding_length, RtMessage.encoded_size, valuesSize, hn]
  have h4 : (⟨[(Tag.NONC, nonce)]⟩ : RtMessage).add_field Tag.PAD (List.replicate 944 0)
      = .ok ⟨[(Tag.NONC, nonce), (Tag.PAD, List.replicate 944 0)]⟩ := by
    simp [RtMessage.add_field, hord]
  have h5 : (⟨[(Tag.NONC, nonce), (Tag.PAD, List.replicate 944 0)]⟩ : RtMessage).encode
      = u32le 2 ++ u32le 64 ++ Tag.NONC ++ Tag.PAD ++ nonce ++ List.replicate 944 0 := by
    simp [RtMessage.encode, cumLengths, hn]
  unfold build_packet
  rw [h1, exceptBindOk]
  rw [h2, exceptBindOk]
  simp only [h3]
  rw [exceptBindOk]
  rw [h4, exceptBindOk]
  rw [h5]

lemma from_bytes_two (v1 v2 : Bytes) (h1 : v1.length = 64) (h2 : v2.length = 944) :
    from_bytes (u32le 2 ++ u32le 64 ++ Tag.NONC ++ Tag.PAD ++ v1 ++ v2)
      = .ok ⟨[(Tag.NONC, v1), (Tag.PAD, v2)]⟩ := by
  have htake : (v1 ++ v2).take 64 = v1 := by
    simp [List.take_append_of_le_length, h1]
  have hdrop : (v1 ++ v2).drop 64 = v2 := by
    simp [h1]
  simp [from_bytes, u32le, Tag.NONC, Tag.PAD, readU32le, splitValues,
        htake, hdrop, List.range_succ, h1, h2]

/-- Claim C6: for every 32-byte input hash, building the request packet
from the zero-padded nonce is a pure function with no failure path: it
returns a packet (byte-identical across runs, being a function of the
nonce alone) whose total length is exactly the 1024-byte protocol floor,
and decoding the NONC field of the packet returns the padded nonce, whose
first 32 bytes are the original hash. -/
theorem c6_build_packet_roundtrip (hash : Bytes) (h32 : hash.length = 32) :
    ∃ pkt, build_packet (pad_nonce hash) = .ok pkt ∧
      pkt.length = 1024 ∧ 1024 ≤ pkt.length ∧
      decodeField pkt Tag.NONC = some (pad_nonce hash) ∧
      (pad_nonce hash).take 32 = hash := by
  have hn := pad_nonce_len hash h32
  refine ⟨_, build_packet_eq _ hn, ?_, ?_, ?_, ?_⟩
  · simp [u32le, Tag.NONC, Tag.PAD, hn]
  · simp [u32le, Tag.NONC, Tag.PAD, hn]
  · unfold decodeField
    rw [from_bytes_two _ _ hn (by simp)]
    simp [RtMessage.get_field, List.find?]
  · simp [pad_nonce_eq hash h32, List.take_append_of_le_length, h32,
      List.take_of_length_le]

/-- Claim C6 witness: the packet properties evaluated at the concrete
32-byte hash of 7 bytes. -/
theorem c6_build_packet_roundtrip_witness :
    (List.replicate 32 7 : Bytes).length = 32 ∧
    ∃ pkt, build_packet (pad_nonce (List.replicate 32 7)) = .ok pkt ∧
      pkt.length = 1024 ∧ 1024 ≤ pkt.length ∧
      decodeField pkt Tag.NONC = some (pad_nonce (List.replicate 32 7)) ∧
      (pad_nonce (List.replicate 32 7)).take 32 = List.replicate 32 7 :=
  ⟨by simp, c6_build_packet_roundtrip (List.replicate 32 7) (by simp)⟩

/-- Claim C2: evaluation at a failing input.  For a well-formed reply
whose Merkle path digest is inconsistent with the claimed root (leaf
index 0, one 64-byte sibling, claimed root 0x01, digest functions
instantiated so the recomputed root is 0x00), lib.rs parse_reply panics
through assert_eq instead of returning a typed VerificationError, while
main.rs probe_once returns a successful ProbeResult whose merkle_ok flag
is false: the mismatch is downgraded to an informational flag. -/
theorem c2_merkle_mismatch_behavior :
    parse_reply (fun _ => [0]) (fun _ _ => [0]) "h" (List.replicate 64 0)
        (RtMessage.encode ⟨[(Tag.SREP, RtMessage.encode ⟨[(Tag.RADI, [1, 0, 0, 0]),
            (Tag.MIDP, [0, 0, 0, 0, 0, 0, 0, 0]), (Tag.ROOT, [1])]⟩),
          (Tag.INDX, [0, 0, 0, 0]), (Tag.PATH, List.replicate 64 2)]⟩) 0 0
      = .panicked "Merkle path invalid" ∧
    probe_once_parse (fun _ => [0]) (fun _ _ => [0]) "h" (List.replicate 64 0)
        (RtMessage.encode ⟨[(Tag.SREP, RtMessage.encode ⟨[(Tag.RADI, [1, 0, 0, 0]),
            (Tag.MIDP, [0, 0, 0, 0, 0, 0, 0, 0]), (Tag.ROOT, [1])]⟩),
          (Tag.INDX, [0, 0, 0, 0]), (Tag.PATH, List.replicate 64 2)]⟩) 0
      = .ok ⟨"h", 0, 0, 1, false⟩ :=
  ⟨by decide, by decide⟩

/-- Claim C4: evaluation at failing inputs.  For a well-formed tagged
message that lacks the required SREP tag, and for a reply whose RADI
value is two bytes instead of four, reply decoding panics (unwrap on a
missing tag, out-of-range fixed-width slice) instead of producing a
ProtocolError result; in main2.rs this panic is raised on the main thread
and aborts the process. -/
theorem c4_missing_tag_panics :
    parse_reply (fun _ => [0]) (fun _ _ => [0]) "h" []
        (RtMessage.encode ⟨[(Tag.NONC, List.replicate 64 0)]⟩) 0 0
      = .panicked "called Option::unwrap on a None value" ∧
    parse_reply (fun _ => [0]) (fun _ _ => [0]) "h" []
        (RtMessage.encode ⟨[(Tag.SREP, RtMessage.encode ⟨[(Tag.RADI, [1, 0])]⟩)]⟩) 0 0
      = .panicked "range end index 4 out of range" :=
  ⟨by decide, by decide⟩

end RtTimestamp
